import Mathlib

/-!
Verification of the session gateway in `llmstack/server/consumers.py`.

The consumers translate inbound websocket frames into execution requests and
stream the engine's responses back as outbound frames.  We embed the event
handlers as pure functions: the engine, storage and actor collaborators are
external, so their results (response sequences, created assets, raised
exceptions) are parameters of the handlers; the handlers return the list of
observable actions (frames sent, close, log, task control) they perform.
-/

namespace LLMStack

/-- JSON values, the shape of text frames (`json.dumps` / parsed `json.loads`
objects).  Object fields keep insertion order, as Python dicts do. -/
inductive Json where
  | null : Json
  | bool (b : Bool) : Json
  | num (n : Int) : Json
  | str (s : String) : Json
  | arr (elems : List Json) : Json
  | obj (fields : List (String × Json)) : Json

/-- Association-list lookup used by `Json.get?` (first matching key wins,
like a Python dict built from these fields). -/
def lookupField : List (String × Json) → String → Option Json
  | [], _ => none
  | (k, v) :: rest, key => if k = key then some v else lookupField rest key

/-- `json_data.get(key, None)`: `none` when the key is absent or the value is
not an object. -/
def Json.get? : Json → String → Option Json
  | .obj fields, key => lookupField fields key
  | _, _ => none

/-- `json_data.get("event", None) == name`: true exactly when the `event`
field is the string `name`. -/
def jsonEventIs (jsonData : Json) (name : String) : Bool :=
  match jsonData.get? "event" with
  | some (.str s) => s = name
  | _ => false

/-- Render an optional correlation id the way `json.dumps` renders a possibly
`None` Python value. -/
def optJson (o : Option Json) : Json := o.getD .null

/-- One error entry of an `ERRORS` response (`error.message`). -/
structure ErrMsg where
  message : String
deriving DecidableEq, Repr

/-- The engine's response taxonomy (`AppRunnerStreamingResponseType` plus the
data each variant carries). -/
inductive AppRunnerResponse where
  | outputStreamChunk (deltas : List (String × Json)) : AppRunnerResponse
  | output (chunks : Json) : AppRunnerResponse
  | errors (errs : List ErrMsg) : AppRunnerResponse
  | outputStreamEnd : AppRunnerResponse

/-- `ERRORS` and `OUTPUT_STREAM_END` are the terminal variants of the
taxonomy. -/
def AppRunnerResponse.isTerminal : AppRunnerResponse → Bool
  | .errors _ => true
  | .outputStreamEnd => true
  | _ => false

/-- Observable effects of an event handler, in the order they are performed. -/
inductive Action where
  | sendText (j : Json) : Action
  | sendBytes (b : List Nat) : Action
  | close (code : Option Nat) : Action
  | log (msg : String) : Action
  | cancelTask : Action
  | setDisconnected : Action
  | runnerStop : Action
  | actorStop : Action
  | actorInput (data : String) : Action

/-- The text frames among a handler's actions, in emission order.  Logging
and task control are not outbound frames. -/
def sentTexts (as : List Action) : List Json :=
  as.filterMap fun a =>
    match a with
    | .sendText j => some j
    | _ => none

/-- Result of iterating the engine's lazy response sequence: the responses
yielded before the iterator (or the `run` call itself) possibly raised, and
the raised exception's message if it did. -/
structure RunResult where
  items : List AppRunnerResponse
  err : Option String

/-- Frames `AppConsumer._respond_to_event` forwards for one engine response
(`dump` is pydantic's `model_dump_json`, the verbatim pass-through
serializer).  `OUTPUT` is not matched by this consumer and is ignored. -/
def appFrameFor (dump : AppRunnerResponse → Json) (cid : Option Json) :
    AppRunnerResponse → List Json
  | .outputStreamChunk deltas => [dump (.outputStreamChunk deltas)]
  | .errors errs =>
      [Json.obj [("errors", Json.arr (errs.map fun e => Json.str e.message)),
                 ("request_id", optJson cid)]]
  | .outputStreamEnd =>
      [Json.obj [("event", Json.str "done"), ("request_id", optJson cid)]]
  | .output _ => []

/-- The `run`-event dispatch loop of `AppConsumer._respond_to_event`
(consumers.py lines 159-180).  `cancelled i` / `connected i` are the values
of `asyncio.current_task().cancelled()` and `self._connected` observed at
iteration step `i`; the loop breaks before emitting when cancelled or no
longer connected.  There is no break after a terminal variant.  An exception
raised by the iterator after the yielded items is caught by the surrounding
`except` and logged. -/
def appRunLoop (dump : AppRunnerResponse → Json) (cancelled connected : Nat → Bool)
    (cid : Option Json) : List AppRunnerResponse → Option String → Nat → List Action
  | [], none, _ => []
  | [], some e, _ => [Action.log e]
  | r :: rs, err, i =>
      if cancelled i || !connected i then []
      else (appFrameFor dump cid r).map Action.sendText
            ++ appRunLoop dump cancelled connected cid rs err (i + 1)

/-- The `create_asset` branch of `AppConsumer._respond_to_event`
(consumers.py lines 181-233).  `created` is the outcome of building the
metadata and calling `AppSessionFiles.create_asset`: a raised exception's
message, or the optional created asset's `objref`.  On exception the handler
logs and sends an error frame carrying the event's correlation id. -/
def appCreateAssetActions (cid : Option Json) :
    Except String (Option String) → List Action
  | .error e =>
      [Action.log e,
       Action.sendText (Json.obj
         [("errors", Json.arr [Json.str e]),
          ("reply_to", optJson cid),
          ("request_id", optJson cid),
          ("asset_request_id", optJson cid)])]
  | .ok none =>
      [Action.sendText (Json.obj
         [("errors", Json.arr [Json.str "Failed to create asset"]),
          ("reply_to", optJson cid),
          ("request_id", optJson cid),
          ("asset_request_id", optJson cid)])]
  | .ok (some objref) =>
      [Action.sendText (Json.obj
         [("asset", Json.str objref),
          ("reply_to", optJson cid),
          ("request_id", optJson cid),
          ("asset_request_id", optJson cid)])]

/-- Collaborator outcomes an `AppConsumer` event can consume: the engine's
response sequence for a `run` event and the asset-creation outcome for a
`create_asset` event. -/
structure AppCollab where
  run : RunResult
  createAsset : Except String (Option String)

/-- `AppConsumer._respond_to_event` (consumers.py lines 148-242): parse the
correlation id and event tag, then dispatch.  The source has two separate
`if` chains: `run`/`create_asset`, then `delete_asset` (a no-op placeholder)
/`stop` (set the liveness flag false, cancel the active task, close). -/
def appRespondToEvent (dump : AppRunnerResponse → Json)
    (cancelled connected : Nat → Bool) (collab : AppCollab)
    (jsonData : Json) : List Action :=
  let cid := jsonData.get? "id"
  (if jsonEventIs jsonData "run" then
      appRunLoop dump cancelled connected cid collab.run.items collab.run.err 0
   else if jsonEventIs jsonData "create_asset" then
      appCreateAssetActions cid collab.createAsset
   else [])
  ++
  (if jsonEventIs jsonData "delete_asset" then []
   else if jsonEventIs jsonData "stop" then
      [Action.setDisconnected, Action.cancelTask, Action.close none]
   else [])

/-- Frames `PlaygroundConsumer._respond_to_event` forwards for one engine
response (consumers.py lines 449-457): chunks pass through verbatim, a
non-streaming `OUTPUT` becomes a `done` frame carrying the chunks; `ERRORS`
and `OUTPUT_STREAM_END` are not matched by this consumer. -/
def pgFrameFor (dump : AppRunnerResponse → Json) (cid : Option Json) :
    AppRunnerResponse → List Json
  | .outputStreamChunk deltas => [dump (.outputStreamChunk deltas)]
  | .output chunks =>
      [Json.obj [("event", Json.str "done"), ("request_id", optJson cid),
                 ("data", chunks)]]
  | _ => []

/-- The response-dispatch loop of `PlaygroundConsumer._respond_to_event`
(consumers.py lines 443-459).  Unlike `AppConsumer`, only `self._connected`
is checked before each emission (no cancellation check).  An iterator
exception after the yielded items is caught and logged by the surrounding
`except`. -/
def pgRunLoop (dump : AppRunnerResponse → Json) (connected : Nat → Bool)
    (cid : Option Json) : List AppRunnerResponse → Option String → Nat → List Action
  | [], none, _ => []
  | [], some e, _ => [Action.log e]
  | r :: rs, err, i =>
      if !connected i then []
      else (pgFrameFor dump cid r).map Action.sendText
            ++ pgRunLoop dump connected cid rs err (i + 1)

/-- `PlaygroundConsumer._respond_to_event` (consumers.py lines 415-460).
Every received frame triggers a run (there is no event check).  `construct`
is the outcome of `PlaygroundViewSet().get_app_runner_async`: if it raised,
the coroutine dies before the `try` block and nothing is emitted; otherwise
the dispatch loop runs inside `try`-`except` and
`await self._app_runner.stop()` executes afterwards in every case. -/
def playgroundRespondToEvent (dump : AppRunnerResponse → Json)
    (connected : Nat → Bool) (jsonData : Json)
    (construct : Except String RunResult) : List Action :=
  match construct with
  | .error _ => []
  | .ok res =>
      pgRunLoop dump connected (jsonData.get? "id") res.items res.err 0
        ++ [Action.runnerStop]

/-- Backing state of an `AssetStream`: appended chunks and the finalized
flag. -/
structure AssetStreamState where
  chunks : List (List Nat)
  finalized : Bool
deriving DecidableEq, Repr

/-- The asset's durable content: the appended chunks in append order. -/
def AssetStreamState.content (st : AssetStreamState) : List Nat :=
  st.chunks.flatten

/-- Outcomes of the storage collaborator's operations for one asset-stream
event: the chunks `read_async` yields (before a possible exception), and the
exception messages, if any, of `read_async`, `append_chunk` and `finalize`. -/
structure AssetOpsOutcome where
  readChunks : List (List Nat)
  readErr : Option String
  appendErr : Option String
  finalizeErr : Option String
deriving DecidableEq, Repr

/-- `b"read"` as bytes. -/
def readTag : List Nat := [114, 101, 97, 100]

/-- `b"write"` as bytes. -/
def writeTag : List Nat := [119, 114, 105, 116, 101]

/-- `b"write\n"` as bytes (the finalize frame). -/
def writeNL : List Nat := [119, 114, 105, 116, 101, 10]

/-- `AssetStreamConsumer._respond_to_event` (consumers.py lines 262-293).
Empty `bytes_data` is falsy and does nothing.  The event tag is the portion
of the frame before the first `b"\n"` (`bytes_data.split(b"\n")[0]`).  If the
asset handle did not resolve at connect time, close with policy-violation
code 1008 and do no I/O.  `read` streams the chunks; the exact frame
`b"write\n"` finalizes and closes; any other `write` frame appends
`bytes_data[6:]` as one chunk.  Any exception is caught: logged, an empty
binary frame is sent, and the connection is closed. -/
def assetRespondToEvent (assetResolved : Bool) (ops : AssetOpsOutcome)
    (st : AssetStreamState) (bytesData : List Nat) :
    AssetStreamState × List Action :=
  if bytesData = [] then (st, [])
  else
    let event := bytesData.takeWhile fun b => b ≠ 10
    if assetResolved = false then (st, [Action.close (some 1008)])
    else if event = readTag then
      match ops.readErr with
      | none => (st, ops.readChunks.map Action.sendBytes)
      | some e =>
          (st, ops.readChunks.map Action.sendBytes
                ++ [Action.log e, Action.sendBytes [], Action.close none])
    else if event = writeTag then
      if bytesData = writeNL then
        match ops.finalizeErr with
        | none => ({ st with finalized := true }, [Action.close none])
        | some e => (st, [Action.log e, Action.sendBytes [], Action.close none])
      else
        match ops.appendErr with
        | none => ({ st with chunks := st.chunks ++ [bytesData.drop 6] }, [])
        | some e => (st, [Action.log e, Action.sendBytes [], Action.close none])
    else (st, [])

/-- No storage operation fails and a `read` yields nothing further. -/
def noAssetErrors : AssetOpsOutcome := ⟨[], none, none, none⟩

/-- Process a sequence of binary frames on one asset-stream connection,
threading the backing state and concatenating the actions (each frame's
handler task, run to completion in arrival order). -/
def assetRunFrames (assetResolved : Bool) (ops : AssetOpsOutcome)
    (st : AssetStreamState) : List (List Nat) → AssetStreamState × List Action
  | [] => (st, [])
  | f :: fs =>
      let r := assetRespondToEvent assetResolved ops st f
      let rest := assetRunFrames assetResolved ops r.1 fs
      (rest.1, r.2 ++ rest.2)

/-- State of a `ConnectionConsumer` session: whether the activation actor has
been stopped, whether the activation task has been cancelled, and whether the
websocket has been closed. -/
structure ConnState where
  actorStopped : Bool
  activationCancelled : Bool
  closed : Bool
deriving DecidableEq, Repr

/-- `ConnectionConsumer.disconnect` (consumers.py lines 315-319): stop the
actor, cancel a still-running activation task — but the final
`self.close(code=close_code)` builds a coroutine that is never awaited, so
the websocket close itself never executes and `closed` stays false. -/
def connDisconnect (_closeCode : Nat) (st : ConnState) : ConnState × List Action :=
  ({ st with actorStopped := true, activationCancelled := true },
   [Action.actorStop, Action.cancelTask])

/-- The `input == "terminate"` branch of `ConnectionConsumer.receive`
(consumers.py lines 372-381).  The actor proxy call
`self.connection_activation_actor.input(...)` is fire-and-forget (its future
is not awaited); an exception raised by the call itself is logged.  The
`finally` block evaluates `self.disconnect(1000)` WITHOUT `await`: the
coroutine is created and discarded, so none of `connDisconnect`'s effects
happen and the session state is unchanged. -/
def connReceiveTerminate (st : ConnState) (inputCallErr : Option String) :
    ConnState × List Action :=
  match inputCallErr with
  | none => (st, [Action.actorInput "terminate"])
  | some e => (st, [Action.log e])

/-- One iteration of `ConnectionConsumer._activate_connection` for an
intermediate `ConnectionActivationOutput` event (consumers.py lines
334-339): the loop runs as long as the activation task has not been
cancelled and forwards `{event: "output", output: data}`; it checks no
liveness flag. -/
def connActivationStep (st : ConnState) (outputData : Json) : List Action :=
  if st.activationCancelled then []
  else [Action.sendText (Json.obj
          [("event", Json.str "output"), ("output", outputData)])]

/-- The `media` branch of `TwilioVoiceConsumer._respond_to_event`
(consumers.py lines 582-601).  `payload` is
`json_data.get("media", {}).get("payload", "")`.  An empty payload or an
unattached input audio stream returns without any action.  Otherwise the
payload is base64-decoded (`b64decode`), converted from G.711 u-law to
16-bit linear PCM (`ulaw2lin`, width 2), upsampled from 8kHz to 24kHz
(`ratecvUp`), and appended to the input audio stream; these codec functions
are stdlib collaborators passed as parameters.  `appendErr` is the message
of an exception raised inside the `try` (for instance by `append_chunk`),
which is caught and logged. -/
def twilioHandleMedia (b64decode : String → List Nat)
    (ulaw2lin ratecvUp : List Nat → List Nat)
    (inputStream : Option AssetStreamState) (payload : String)
    (appendErr : Option String) : Option AssetStreamState × List Action :=
  if payload = "" then (inputStream, [])
  else
    match inputStream with
    | none => (none, [])
    | some st =>
        match appendErr with
        | some e => (some st, [Action.log e])
        | none =>
            (some { st with
                      chunks := st.chunks ++ [ratecvUp (ulaw2lin (b64decode payload))] },
             [])

theorem sentTexts_append (as bs : List Action) :
    sentTexts (as ++ bs) = sentTexts as ++ sentTexts bs := by
  simp [sentTexts]

theorem sentTexts_map_sendText (js : List Json) :
    sentTexts (js.map Action.sendText) = js := by
  induction js with
  | nil => rfl
  | cons j js ih => simpa [sentTexts] using ih

theorem sentTexts_nil : sentTexts [] = [] := rfl

theorem sentTexts_log (e : String) : sentTexts [Action.log e] = [] := rfl

/-- Once the liveness check fails at step `k` of `AppConsumer`'s dispatch
loop, the frames sent are exactly those of the first `k - i` responses:
nothing later is emitted. -/
theorem appRunLoop_take (dump : AppRunnerResponse → Json) (c l : Nat → Bool)
    (cid : Option Json) (err : Option String) (k : Nat) (hk : l k = false) :
    ∀ (rs : List AppRunnerResponse) (i : Nat), i ≤ k →
      sentTexts (appRunLoop dump c l cid rs err i)
        = sentTexts (appRunLoop dump c l cid (rs.take (k - i)) none i) := by
  intro rs
  induction rs with
  | nil =>
      intro i _
      cases err <;> simp [appRunLoop, sentTexts]
  | cons r rs ih =>
      intro i hi
      rcases eq_or_lt_of_le hi with rfl | hlt
      · simp [appRunLoop, hk, sentTexts]
      · have hk1 : k - i = (k - (i + 1)) + 1 := by omega
        rw [hk1, List.take_succ_cons]
        by_cases hc : (c i || !l i) = true
        · simp [appRunLoop, hc]
        · rw [Bool.not_eq_true] at hc
          simp [appRunLoop, hc, sentTexts_append, ih (i + 1) hlt]

/-- Same truncation property for `PlaygroundConsumer`'s dispatch loop, whose
check is the `self._connected` flag alone. -/
theorem pgRunLoop_take (dump : AppRunnerResponse → Json) (l : Nat → Bool)
    (cid : Option Json) (err : Option String) (k : Nat) (hk : l k = false) :
    ∀ (rs : List AppRunnerResponse) (i : Nat), i ≤ k →
      sentTexts (pgRunLoop dump l cid rs err i)
        = sentTexts (pgRunLoop dump l cid (rs.take (k - i)) none i) := by
  intro rs
  induction rs with
  | nil =>
      intro i _
      cases err <;> simp [pgRunLoop, sentTexts]
  | cons r rs ih =>
      intro i hi
      rcases eq_or_lt_of_le hi with rfl | hlt
      · simp [pgRunLoop, hk, sentTexts]
      · have hk1 : k - i = (k - (i + 1)) + 1 := by omega
        rw [hk1, List.take_succ_cons]
        by_cases hc : (!l i) = true
        · simp [pgRunLoop, hc]
        · rw [Bool.not_eq_true] at hc
          simp [pgRunLoop, hc, sentTexts_append, ih (i + 1) hlt]

/-- Claim C1: once the session's liveness flag is false (set at disconnect),
no further outbound frame is emitted for an in-flight run.  If the flag
observed at step `k` is false, the frames sent by the dispatch loop — for
both the `AppConsumer` loop (which also checks task cancellation) and the
`PlaygroundConsumer` loop — are exactly those of the first `k` responses,
even if the engine's sequence has more items and even if the iterator would
raise afterwards; the loop abandons iteration without emitting and without
raising. -/
theorem run_dispatch_liveness_gate (dump : AppRunnerResponse → Json)
    (cancelled connected : Nat → Bool) (cid : Option Json)
    (rs : List AppRunnerResponse) (err : Option String) (k : Nat)
    (h : connected k = false) :
    sentTexts (appRunLoop dump cancelled connected cid rs err 0)
      = sentTexts (appRunLoop dump cancelled connected cid (rs.take k) none 0)
    ∧ sentTexts (pgRunLoop dump connected cid rs err 0)
      = sentTexts (pgRunLoop dump connected cid (rs.take k) none 0) := by
  constructor
  · simpa using appRunLoop_take dump cancelled connected cid err k h rs 0 (Nat.zero_le k)
  · simpa using pgRunLoop_take dump connected cid err k h rs 0 (Nat.zero_le k)

/-- Witness for `run_dispatch_liveness_gate` at a disconnected session with a
buffered response: no frame is emitted. -/
theorem run_dispatch_liveness_gate_witness :
    ((fun _ => false : Nat → Bool) 0 = false)
    ∧ sentTexts (appRunLoop (fun _ => Json.null) (fun _ => false) (fun _ => false)
        none [AppRunnerResponse.outputStreamEnd] none 0) = [] := by
  refine ⟨rfl, ?_⟩
  have h := (run_dispatch_liveness_gate (fun _ => Json.null) (fun _ => false)
    (fun _ => false) none [AppRunnerResponse.outputStreamEnd] none 0 rfl).1
  simpa using h

/-- Appending one response at the end of the engine sequence either adds
nothing to the frames (the loop broke first) or appends exactly that
response's frames at the very end. -/
theorem appRunLoop_append_one (dump : AppRunnerResponse → Json)
    (c l : Nat → Bool) (cid : Option Json) (t : AppRunnerResponse)
    (err : Option String) :
    ∀ (rs : List AppRunnerResponse) (i : Nat),
      sentTexts (appRunLoop dump c l cid (rs ++ [t]) err i)
        = sentTexts (appRunLoop dump c l cid rs none i)
      ∨ sentTexts (appRunLoop dump c l cid (rs ++ [t]) err i)
        = sentTexts (appRunLoop dump c l cid rs none i) ++ appFrameFor dump cid t := by
  intro rs
  induction rs with
  | nil =>
      intro i
      by_cases hc : (c i || !l i) = true
      · left
        simp [appRunLoop, hc, sentTexts]
      · right
        rw [Bool.not_eq_true] at hc
        cases err <;>
          simp only [List.nil_append, appRunLoop, hc, Bool.false_or, Bool.not_true,
            Bool.not_false, if_false, Bool.false_eq_true, ite_false, sentTexts_append,
            sentTexts_map_sendText, sentTexts_nil, sentTexts_log, List.append_nil]
  | cons r rs ih =>
      intro i
      by_cases hc : (c i || !l i) = true
      · left
        simp [appRunLoop, hc]
      · rw [Bool.not_eq_true] at hc
        rcases ih (i + 1) with h | h
        · left
          simp [appRunLoop, hc, sentTexts_append, h]
        · right
          simp [appRunLoop, hc, sentTexts_append, h]

/-- Claim C2 (amended): the dispatcher does not break out of the iteration
after forwarding the frame of a terminal variant (`ERRORS`,
`OUTPUT_STREAM_END`); but a terminal variant produces exactly one frame, and
when the engine sequence yields nothing after the terminal variant (the
engine's own invariant), that frame is the last frame forwarded for the
request — either the loop broke before reaching it, or the output is the
prefix's output with the terminal frame appended last. -/
theorem run_dispatch_terminal_is_last (dump : AppRunnerResponse → Json)
    (c l : Nat → Bool) (cid : Option Json) (rs : List AppRunnerResponse)
    (t : AppRunnerResponse) (err : Option String)
    (ht : t.isTerminal = true) :
    (appFrameFor dump cid t).length = 1
    ∧ (sentTexts (appRunLoop dump c l cid (rs ++ [t]) err 0)
         = sentTexts (appRunLoop dump c l cid rs none 0)
       ∨ sentTexts (appRunLoop dump c l cid (rs ++ [t]) err 0)
         = sentTexts (appRunLoop dump c l cid rs none 0)
             ++ appFrameFor dump cid t) := by
  constructor
  · cases t with
    | outputStreamChunk deltas => exact absurd ht (by simp [AppRunnerResponse.isTerminal])
    | output chunks => exact absurd ht (by simp [AppRunnerResponse.isTerminal])
    | errors errs => rfl
    | outputStreamEnd => rfl
  · exact appRunLoop_append_one dump c l cid t err rs 0

/-- Witness for `run_dispatch_terminal_is_last` on a sequence ending at
`OUTPUT_STREAM_END`, fully live. -/
theorem run_dispatch_terminal_is_last_witness :
    AppRunnerResponse.outputStreamEnd.isTerminal = true
    ∧ ((appFrameFor (fun _ => Json.null) none AppRunnerResponse.outputStreamEnd).length = 1
       ∧ (sentTexts (appRunLoop (fun _ => Json.null) (fun _ => false) (fun _ => true)
             none ([] ++ [AppRunnerResponse.outputStreamEnd]) none 0)
            = sentTexts (appRunLoop (fun _ => Json.null) (fun _ => false) (fun _ => true)
                none [] none 0)
          ∨ sentTexts (appRunLoop (fun _ => Json.null) (fun _ => false) (fun _ => true)
              none ([] ++ [AppRunnerResponse.outputStreamEnd]) none 0)
            = sentTexts (appRunLoop (fun _ => Json.null) (fun _ => false) (fun _ => true)
                none [] none 0)
                ++ appFrameFor (fun _ => Json.null) none AppRunnerResponse.outputStreamEnd)) :=
  ⟨rfl, run_dispatch_terminal_is_last (fun _ => Json.null) (fun _ => false)
    (fun _ => true) none [] AppRunnerResponse.outputStreamEnd none rfl⟩

/-- Counterexample to claim C2 as stated: the dispatch loop of
`AppConsumer._respond_to_event` has no `break` after a terminal variant.  On
a live session, if the engine (violating its own invariant) yields a chunk
after `ERRORS`, the dispatcher forwards the chunk after the terminal
`errors` frame: two frames go out, the terminal frame is not last. -/
theorem terminal_no_break_counterexample :
    sentTexts (appRunLoop (fun _ => Json.null) (fun _ => false) (fun _ => true)
        (some (Json.str "r2"))
        [AppRunnerResponse.errors [⟨"boom"⟩],
         AppRunnerResponse.outputStreamChunk []] none 0)
      = [Json.obj [("errors", Json.arr [Json.str "boom"]),
                   ("request_id", Json.str "r2")],
         Json.null]
    ∧ (AppRunnerResponse.errors [⟨"boom"⟩]).isTerminal = true :=
  ⟨rfl, rfl⟩

/-- Claim C3: a connected Web session receiving
`{"event": "run", "id": "r1", "input": {"q": "hi"}}` whose engine yields two
chunks and then `OUTPUT_STREAM_END` sends exactly three frames in order: the
two chunk responses serialized verbatim by `dump` (pass-through), then
`{"event": "done", "request_id": "r1"}`. -/
theorem web_run_scenario_frames (dump : AppRunnerResponse → Json) :
    appRespondToEvent dump (fun _ => false) (fun _ => true)
      ⟨⟨[AppRunnerResponse.outputStreamChunk [("a", Json.str "h")],
         AppRunnerResponse.outputStreamChunk [("a", Json.str "hi")],
         AppRunnerResponse.outputStreamEnd], none⟩, .ok none⟩
      (Json.obj [("event", Json.str "run"), ("id", Json.str "r1"),
                 ("input", Json.obj [("q", Json.str "hi")])])
      = [Action.sendText (dump (.outputStreamChunk [("a", Json.str "h")])),
         Action.sendText (dump (.outputStreamChunk [("a", Json.str "hi")])),
         Action.sendText (Json.obj [("event", Json.str "done"),
                                    ("request_id", Json.str "r1")])] := by
  rfl

/-- Claim C5: an exception raised while processing a `run` event only adds a
log entry — the frames sent are unchanged, so no error frame reaches the
client and the run terminates silently; whereas an exception raised while
processing a `create_asset` event is logged and answered with an
`{errors: [str(e)], reply_to, request_id, asset_request_id}` frame carrying
the event's correlation id. -/
theorem run_create_asset_error_asymmetry (dump : AppRunnerResponse → Json)
    (cid cid2 : Option Json) (items : List AppRunnerResponse) (e : String) :
    appRunLoop dump (fun _ => false) (fun _ => true) cid items (some e) 0
      = appRunLoop dump (fun _ => false) (fun _ => true) cid items none 0
          ++ [Action.log e]
    ∧ appCreateAssetActions cid2 (.error e)
      = [Action.log e,
         Action.sendText (Json.obj
           [("errors", Json.arr [Json.str e]),
            ("reply_to", optJson cid2),
            ("request_id", optJson cid2),
            ("asset_request_id", optJson cid2)])] := by
  constructor
  · suffices h : ∀ (items : List AppRunnerResponse) (i : Nat),
        appRunLoop dump (fun _ => false) (fun _ => true) cid items (some e) i
          = appRunLoop dump (fun _ => false) (fun _ => true) cid items none i
              ++ [Action.log e] from h items 0
    intro items
    induction items with
    | nil => intro i; rfl
    | cons r rs ih => intro i; simp [appRunLoop, ih (i + 1)]
  · rfl

/-- Claim C4: on an asset-stream connection with a resolved asset, a frame
`b"write\n" ++ payload` with non-empty payload appends exactly that payload
as one chunk; the exact frame `b"write\n"` finalizes the stream and closes
the connection; and the frame sequence `b"write\nAAAA"`, `b"write\nBB"`,
`b"write\n"` leaves the durable content equal to `b"AAAABB"` with the
connection closed after the third frame. -/
theorem asset_write_protocol (st : AssetStreamState) (payload : List Nat)
    (h : payload ≠ []) :
    assetRespondToEvent true noAssetErrors st (writeNL ++ payload)
        = ({ st with chunks := st.chunks ++ [payload] }, [])
    ∧ assetRespondToEvent true noAssetErrors st writeNL
        = ({ st with finalized := true }, [Action.close none])
    ∧ assetRunFrames true noAssetErrors ⟨[], false⟩
          [writeNL ++ [65, 65, 65, 65], writeNL ++ [66, 66], writeNL]
        = (⟨[[65, 65, 65, 65], [66, 66]], true⟩, [Action.close none])
    ∧ AssetStreamState.content ⟨[[65, 65, 65, 65], [66, 66]], true⟩
        = [65, 65, 65, 65, 66, 66] := by
  refine ⟨?_, rfl, rfl, rfl⟩
  cases payload with
  | nil => exact absurd rfl h
  | cons b bs => rfl

/-- Witness for `asset_write_protocol` with payload `b"A"`. -/
theorem asset_write_protocol_witness :
    ([65] : List Nat) ≠ []
    ∧ assetRespondToEvent true noAssetErrors ⟨[], false⟩ (writeNL ++ [65])
        = (⟨[[65]], false⟩, []) :=
  ⟨by decide, (asset_write_protocol ⟨[], false⟩ [65] (by decide)).1⟩

/-- Claim C8: on an asset-stream connection whose asset handle failed to
resolve at connect time, any received event — read or write alike — closes
the connection with policy-violation code 1008, leaves the backing state
untouched and performs no asset I/O. -/
theorem asset_unresolved_policy_close (ops : AssetOpsOutcome)
    (st : AssetStreamState) (bytesData : List Nat) (h : bytesData ≠ []) :
    assetRespondToEvent false ops st bytesData
      = (st, [Action.close (some 1008)]) := by
  cases bytesData with
  | nil => exact absurd rfl h
  | cons b bs => rfl

/-- Witness for `asset_unresolved_policy_close` on a read frame. -/
theorem asset_unresolved_policy_close_witness :
    readTag ≠ []
    ∧ assetRespondToEvent false noAssetErrors ⟨[], false⟩ readTag
        = (⟨[], false⟩, [Action.close (some 1008)]) :=
  ⟨by decide, asset_unresolved_policy_close noAssetErrors ⟨[], false⟩ readTag (by decide)⟩

/-- Claim C9: every exception raised during read, append or finalize on an
asset-stream connection is caught: it is logged, an empty binary frame is
sent as a synchronization signal, and the connection is closed; the state is
unchanged and nothing propagates out of the handler (the handler is a total
function into an action list). -/
theorem asset_stream_error_sync_close (st : AssetStreamState)
    (cs : List (List Nat)) (e : String) (payload : List Nat)
    (hp : payload ≠ []) (aerr ferr rerr : Option String) :
    assetRespondToEvent true ⟨cs, some e, aerr, ferr⟩ st readTag
        = (st, cs.map Action.sendBytes
                ++ [Action.log e, Action.sendBytes [], Action.close none])
    ∧ assetRespondToEvent true ⟨cs, rerr, some e, ferr⟩ st (writeNL ++ payload)
        = (st, [Action.log e, Action.sendBytes [], Action.close none])
    ∧ assetRespondToEvent true ⟨cs, rerr, aerr, some e⟩ st writeNL
        = (st, [Action.log e, Action.sendBytes [], Action.close none]) := by
  refine ⟨rfl, ?_, rfl⟩
  cases payload with
  | nil => exact absurd rfl hp
  | cons b bs => rfl

/-- Witness for `asset_stream_error_sync_close` at a failing append. -/
theorem asset_stream_error_sync_close_witness :
    ([65] : List Nat) ≠ []
    ∧ assetRespondToEvent true ⟨[], none, some "disk full", none⟩ ⟨[], false⟩
        (writeNL ++ [65])
        = (⟨[], false⟩, [Action.log "disk full", Action.sendBytes [],
                          Action.close none]) :=
  ⟨by decide,
   (asset_stream_error_sync_close ⟨[], false⟩ [] "disk full" [65] (by decide)
      none none none).2.1⟩

/-- Claim C6, evaluated on the code: receiving
`{"event": "input", "input": "terminate"}` delivers the terminate input to
the actor fire-and-forget, but `self.disconnect(1000)` in the `finally`
block is never awaited, so the session state is unchanged: the socket is not
closed, the activation task is not cancelled, and a still-running activation
loop can still emit a further activation frame; even `disconnect` itself
would not set `closed`, since its `self.close(code)` is also unawaited. -/
theorem terminate_leaves_session_open :
    connReceiveTerminate ⟨false, false, false⟩ none
        = (⟨false, false, false⟩, [Action.actorInput "terminate"])
    ∧ connActivationStep ⟨false, false, false⟩ (Json.str "status")
        = [Action.sendText (Json.obj
             [("event", Json.str "output"), ("output", Json.str "status")])]
    ∧ connDisconnect 1000 ⟨false, false, false⟩
        = (⟨true, true, false⟩, [Action.actorStop, Action.cancelTask]) :=
  ⟨rfl, rfl, rfl⟩

/-- Claim C7: a telephony `media` frame with non-empty payload and an
attached input audio stream is base64-decoded, converted from G.711 u-law to
16-bit linear PCM, upsampled from 8kHz to 24kHz, and appended to the input
audio asset as one chunk, with no outbound frame; with an empty payload or
no attached input stream the frame is silently dropped — no frame is
emitted, nothing raises (the handler is total), and the session continues. -/
theorem twilio_media_transcode_pipeline (b64decode : String → List Nat)
    (ulaw2lin ratecvUp : List Nat → List Nat) (st : AssetStreamState)
    (payload : String) (hp : payload ≠ "") (aerr : Option String) :
    twilioHandleMedia b64decode ulaw2lin ratecvUp (some st) payload none
        = (some { st with
                    chunks := st.chunks
                      ++ [ratecvUp (ulaw2lin (b64decode payload))] }, [])
    ∧ twilioHandleMedia b64decode ulaw2lin ratecvUp none payload aerr
        = (none, [])
    ∧ twilioHandleMedia b64decode ulaw2lin ratecvUp (some st) "" aerr
        = (some st, []) := by
  refine ⟨?_, ?_, rfl⟩
  · simp [twilioHandleMedia, hp]
  · by_cases h : payload = "" <;> simp [twilioHandleMedia, h]

/-- Witness for `twilio_media_transcode_pipeline` with identity codecs. -/
theorem twilio_media_transcode_pipeline_witness :
    ("AA" : String) ≠ ""
    ∧ twilioHandleMedia (fun _ => [255]) (fun l => l) (fun l => l)
        (some ⟨[], false⟩) "AA" none
        = (some ⟨[[255]], false⟩, []) :=
  ⟨by decide,
   (twilio_media_transcode_pipeline (fun _ => [255]) (fun l => l) (fun l => l)
      ⟨[], false⟩ "AA" (by decide) none).1⟩

/-- Claim C10: whenever the Playground run handle is successfully
constructed, the last action of the event handler is `stop()` on that
handle — the response-dispatch loop (whether it completed, broke on the
liveness flag, or its iteration raised and was logged) is always followed by
`await self._app_runner.stop()`. -/
theorem playground_run_always_stops_runner (dump : AppRunnerResponse → Json)
    (connected : Nat → Bool) (jsonData : Json) (res : RunResult) :
    (playgroundRespondToEvent dump connected jsonData (.ok res)).getLast?
      = some Action.runnerStop :=
  List.getLast?_concat _

end LLMStack
